import Mathlib

/-!
Verification of the OCR gateway handler in `backend/ocr/index.py`.

The Python handler is shallowly embedded: JSON values become an inductive
type, Python dictionary access, truthiness, `str.strip`, `json.loads` and
`json.dumps` become Lean functions with the same observable behaviour, and
the single outbound HTTP call becomes a function argument together with a
log of the calls that were performed.  Exceptions raised by the Python code
(for example `json.loads` on malformed input) become the error branch of
`Except`.
-/

/-- JSON values as produced by `json.loads`.  Numbers keep their surface
syntax, since the handler never computes with them. -/
inductive Json where
  | null : Json
  | bool : Bool → Json
  | num : String → Json
  | str : String → Json
  | arr : List Json → Json
  | obj : List (String × Json) → Json

/-- Python exceptions that the embedded handler can raise. -/
inductive PyErr where
  | jsonDecodeError : PyErr
  | attributeError : PyErr
  | indexError : PyErr
  | typeError : PyErr
  | keyError : PyErr
deriving Repr, DecidableEq

/-- Does the surface syntax of a JSON number denote zero?  (Used for Python
truthiness: `0`, `0.0`, `-0.000e5` are falsy; `NaN` and `Infinity`, which
contain no digit, are truthy.) -/
def numIsZero (raw : String) : Bool :=
  let mantissa := raw.toList.takeWhile (fun c => c ≠ 'e' ∧ c ≠ 'E')
  mantissa.any (fun c => c.isDigit) && mantissa.all (fun c => !c.isDigit || c = '0')

/-- Python truthiness of a JSON value (`bool(x)`): `None`, `False`, zero,
empty string, empty list and empty dict are falsy. -/
def Json.truthy : Json → Bool
  | .null => false
  | .bool b => b
  | .num raw => !numIsZero raw
  | .str s => s ≠ ""
  | .arr l => !l.isEmpty
  | .obj kvs => !kvs.isEmpty

/-- Lookup in the association list backing a JSON object (Python `dict`
lookup; keys are unique because `insertKey` deduplicates on construction). -/
def dictLookup (kvs : List (String × Json)) (key : String) : Option Json :=
  (kvs.find? (fun kv => kv.1 = key)).map (fun kv => kv.2)

/-- Insert a key into a Python dict: an existing key keeps its position and
gets the new value, a fresh key is appended (insertion order). -/
def insertKey (kvs : List (String × Json)) (key : String) (v : Json) :
    List (String × Json) :=
  match kvs with
  | [] => [(key, v)]
  | (k, w) :: rest =>
      if k = key then (k, v) :: rest else (k, w) :: insertKey rest key v

/-- Python `x.get(key, default)`: only dicts have `.get`; any other value
raises `AttributeError`. -/
def pyGet (j : Json) (key : String) (dflt : Json) : Except PyErr Json :=
  match j with
  | .obj kvs => .ok ((dictLookup kvs key).getD dflt)
  | _ => .error .attributeError

/-- Python `x[0]`: first element of a list, first character of a string;
`0` is not a key of any string-keyed dict (`KeyError`); other values raise
`TypeError`. -/
def pySubscriptZero : Json → Except PyErr Json
  | .arr (x :: _) => .ok x
  | .arr [] => .error .indexError
  | .str s =>
      match s.toList with
      | c :: _ => .ok (.str (String.mk [c]))
      | [] => .error .indexError
  | .obj _ => .error .keyError
  | _ => .error .typeError

/-- The characters Python `str.isspace` accepts, hence the characters
`str.strip()` removes. -/
def pyIsSpace (c : Char) : Bool :=
  ([9, 10, 11, 12, 13, 28, 29, 30, 31, 32, 133, 160, 5760,
    8192, 8193, 8194, 8195, 8196, 8197, 8198, 8199, 8200, 8201, 8202,
    8232, 8233, 8239, 8287, 12288] : List Nat).contains c.toNat

/-- Python `s.strip()`: remove leading and trailing whitespace. -/
def pyStrip (s : String) : String :=
  String.mk (((s.toList.dropWhile pyIsSpace).reverse.dropWhile pyIsSpace).reverse)

/-- Python `x.strip()` on a JSON value: only strings have `.strip`. -/
def pyStripJson : Json → Except PyErr String
  | .str s => .ok (pyStrip s)
  | _ => .error .attributeError

/-- Hexadecimal digit (lowercase), as used by `json.dumps` escapes. -/
def hexDigit (n : Nat) : Char :=
  if n < 10 then Char.ofNat (48 + n) else Char.ofNat (87 + n)

/-- Four-digit lowercase hexadecimal rendering of `n % 65536`. -/
def hex4 (n : Nat) : String :=
  String.mk [hexDigit (n / 4096 % 16), hexDigit (n / 256 % 16),
             hexDigit (n / 16 % 16), hexDigit (n % 16)]

/-- `json.dumps` escaping of one character (default `ensure_ascii=True`:
non-ASCII becomes `\uXXXX`, astral characters become surrogate pairs). -/
def escChar (c : Char) : String :=
  if c = '\"' then "\\\""
  else if c = '\\' then "\\\\"
  else if c = '\n' then "\\n"
  else if c = '\r' then "\\r"
  else if c = '\t' then "\\t"
  else if c = '\x08' then "\\b"
  else if c = '\x0c' then "\\f"
  else if 32 ≤ c.toNat && c.toNat < 127 then String.mk [c]
  else if c.toNat < 65536 then "\\u" ++ hex4 c.toNat
  else "\\u" ++ hex4 (55296 + (c.toNat - 65536) / 1024) ++
       "\\u" ++ hex4 (56320 + (c.toNat - 65536) % 1024)

/-- `json.dumps` of a Python string. -/
def dumpStr (s : String) : String :=
  "\"" ++ String.join (s.toList.map escChar) ++ "\""

mutual

/-- `json.dumps` with default separators (`", "` and `": "`). -/
def jsonDumps : Json → String
  | .null => "null"
  | .bool true => "true"
  | .bool false => "false"
  | .num raw => raw
  | .str s => dumpStr s
  | .arr l => "[" ++ String.intercalate ", " (dumpList l) ++ "]"
  | .obj kvs => "\x7b" ++ String.intercalate ", " (dumpKvs kvs) ++ "\x7d"

/-- `json.dumps` of the elements of a JSON array. -/
def dumpList : List Json → List String
  | [] => []
  | x :: xs => jsonDumps x :: dumpList xs

/-- `json.dumps` of the entries of a JSON object. -/
def dumpKvs : List (String × Json) → List String
  | [] => []
  | (k, v) :: xs => (dumpStr k ++ ": " ++ jsonDumps v) :: dumpKvs xs

end

/-- Skip JSON insignificant whitespace (space, tab, newline, return). -/
def skipWs (cs : List Char) : List Char :=
  cs.dropWhile (fun c => c = ' ' || c = '\t' || c = '\n' || c = '\r')

/-- Value of one hexadecimal digit. -/
def hexVal (c : Char) : Option Nat :=
  if '0' ≤ c && c ≤ '9' then some (c.toNat - 48)
  else if 'a' ≤ c && c ≤ 'f' then some (c.toNat - 87)
  else if 'A' ≤ c && c ≤ 'F' then some (c.toNat - 55)
  else none

/-- Read four hexadecimal digits (the `XXXX` of a `\uXXXX` escape). -/
def readHex4 (cs : List Char) : Option (Nat × List Char) :=
  match cs with
  | a :: b :: c :: d :: rest =>
      match hexVal a, hexVal b, hexVal c, hexVal d with
      | some x, some y, some z, some w => some (x * 4096 + y * 256 + z * 16 + w, rest)
      | _, _, _, _ => none
  | _ => none

/-- Body of a JSON string after the opening quote, per `json.loads` in
strict mode: raw control characters are rejected, `\uXXXX` escapes are
decoded and valid surrogate pairs are combined. -/
def parseStrBody : Nat → List Char → List Char → Except PyErr (String × List Char)
  | 0, _, _ => .error .jsonDecodeError
  | Nat.succ fuel, cs, acc =>
      match cs with
      | [] => .error .jsonDecodeError
      | '\"' :: rest => .ok (String.mk acc.reverse, rest)
      | '\\' :: esc =>
          match esc with
          | '\"' :: rest => parseStrBody fuel rest ('\"' :: acc)
          | '\\' :: rest => parseStrBody fuel rest ('\\' :: acc)
          | '/' :: rest => parseStrBody fuel rest ('/' :: acc)
          | 'b' :: rest => parseStrBody fuel rest ('\x08' :: acc)
          | 'f' :: rest => parseStrBody fuel rest ('\x0c' :: acc)
          | 'n' :: rest => parseStrBody fuel rest ('\n' :: acc)
          | 'r' :: rest => parseStrBody fuel rest ('\r' :: acc)
          | 't' :: rest => parseStrBody fuel rest ('\t' :: acc)
          | 'u' :: rest =>
              match readHex4 rest with
              | none => .error .jsonDecodeError
              | some (hi, rest1) =>
                  if 55296 ≤ hi && hi ≤ 56319 then
                    match rest1 with
                    | '\\' :: 'u' :: rest2 =>
                        match readHex4 rest2 with
                        | none => .error .jsonDecodeError
                        | some (lo, rest3) =>
                            if 56320 ≤ lo && lo ≤ 57343 then
                              parseStrBody fuel rest3
                                (Char.ofNat (65536 + (hi - 55296) * 1024 + (lo - 56320)) :: acc)
                            else .error .jsonDecodeError
                    | _ => .error .jsonDecodeError
                  else if 56320 ≤ hi && hi ≤ 57343 then .error .jsonDecodeError
                  else parseStrBody fuel rest1 (Char.ofNat hi :: acc)
          | _ => .error .jsonDecodeError
      | c :: rest =>
          if c.toNat < 32 then .error .jsonDecodeError
          else parseStrBody fuel rest (c :: acc)

/-- A JSON number starting at `cs` (first character is `-` or a digit),
per the JSON grammar: integer part without leading zeros, optional
fraction, optional exponent.  The surface syntax is kept. -/
def parseNumber (cs : List Char) : Except PyErr (Json × List Char) :=
  let sign : List Char := match cs with | '-' :: _ => ['-'] | _ => []
  let cs1 := match cs with | '-' :: r => r | _ => cs
  let intPart := cs1.takeWhile Char.isDigit
  let rest1 := cs1.dropWhile Char.isDigit
  if intPart.isEmpty then .error .jsonDecodeError
  else if 1 < intPart.length && intPart.headD ' ' = '0' then .error .jsonDecodeError
  else
    let fracAndRest : Except PyErr (List Char × List Char) :=
      match rest1 with
      | '.' :: r2 =>
          let digits := r2.takeWhile Char.isDigit
          if digits.isEmpty then .error .jsonDecodeError
          else .ok ('.' :: digits, r2.dropWhile Char.isDigit)
      | _ => .ok ([], rest1)
    match fracAndRest with
    | .error e => .error e
    | .ok (fracPart, rest2) =>
        let expAndRest : Except PyErr (List Char × List Char) :=
          match rest2 with
          | e :: r3 =>
              if e = 'e' || e = 'E' then
                let esign : List Char :=
                  match r3 with | '+' :: _ => ['+'] | '-' :: _ => ['-'] | _ => []
                let r4 := match r3 with
                  | '+' :: r => r
                  | '-' :: r => r
                  | _ => r3
                let digits := r4.takeWhile Char.isDigit
                if digits.isEmpty then .error .jsonDecodeError
                else .ok (e :: (esign ++ digits), r4.dropWhile Char.isDigit)
              else .ok ([], rest2)
          | [] => .ok ([], rest2)
        match expAndRest with
        | .error e => .error e
        | .ok (expPart, rest3) =>
            .ok (.num (String.mk (sign ++ intPart ++ fracPart ++ expPart)), rest3)

mutual

/-- One JSON value, as accepted by Python `json.loads` (which also accepts
the constants `NaN`, `Infinity` and `-Infinity`). -/
def parseVal : Nat → List Char → Except PyErr (Json × List Char)
  | 0, _ => .error .jsonDecodeError
  | Nat.succ fuel, cs =>
      match skipWs cs with
      | [] => .error .jsonDecodeError
      | '\"' :: rest => do
          let (s, rest1) ← parseStrBody (rest.length + 1) rest []
          pure (.str s, rest1)
      | '\x7b' :: rest => parseObjBody fuel rest true []
      | '[' :: rest => parseArrBody fuel rest true []
      | 't' :: 'r' :: 'u' :: 'e' :: rest => .ok (.bool true, rest)
      | 'f' :: 'a' :: 'l' :: 's' :: 'e' :: rest => .ok (.bool false, rest)
      | 'n' :: 'u' :: 'l' :: 'l' :: rest => .ok (.null, rest)
      | 'N' :: 'a' :: 'N' :: rest => .ok (.num "NaN", rest)
      | 'I' :: 'n' :: 'f' :: 'i' :: 'n' :: 'i' :: 't' :: 'y' :: rest =>
          .ok (.num "Infinity", rest)
      | '-' :: 'I' :: 'n' :: 'f' :: 'i' :: 'n' :: 'i' :: 't' :: 'y' :: rest =>
          .ok (.num "-Infinity", rest)
      | c :: rest =>
          if c = '-' || c.isDigit then parseNumber (c :: rest)
          else .error .jsonDecodeError

/-- The inside of a JSON array after `[`; `first` is true before the first
element has been read. -/
def parseArrBody : Nat → List Char → Bool → List Json →
    Except PyErr (Json × List Char)
  | 0, _, _, _ => .error .jsonDecodeError
  | Nat.succ fuel, cs, first, acc =>
      match skipWs cs with
      | ']' :: rest =>
          if first then .ok (.arr [], rest) else .error .jsonDecodeError
      | cs1 => do
          let (v, rest1) ← parseVal fuel cs1
          match skipWs rest1 with
          | ']' :: rest2 => .ok (.arr (acc ++ [v]), rest2)
          | ',' :: rest2 => parseArrBody fuel rest2 false (acc ++ [v])
          | _ => .error .jsonDecodeError

/-- The inside of a JSON object after the opening brace; duplicate keys
follow Python dict semantics via `insertKey`. -/
def parseObjBody : Nat → List Char → Bool → List (String × Json) →
    Except PyErr (Json × List Char)
  | 0, _, _, _ => .error .jsonDecodeError
  | Nat.succ fuel, cs, first, acc =>
      match skipWs cs with
      | '\x7d' :: rest =>
          if first then .ok (.obj [], rest) else .error .jsonDecodeError
      | '\"' :: rest => do
          let (k, rest1) ← parseStrBody (rest.length + 1) rest []
          match skipWs rest1 with
          | ':' :: rest2 => do
              let (v, rest3) ← parseVal fuel rest2
              let acc1 := insertKey acc k v
              match skipWs rest3 with
              | '\x7d' :: rest4 => .ok (.obj acc1, rest4)
              | ',' :: rest4 => parseObjBody fuel rest4 false acc1
              | _ => .error .jsonDecodeError
          | _ => .error .jsonDecodeError
      | _ => .error .jsonDecodeError

end

/-- Python `json.loads`: one JSON document with nothing but whitespace
around it. -/
def json_loads (s : String) : Except PyErr Json :=
  match parseVal (2 * s.length + 8) s.toList with
  | .error e => .error e
  | .ok (j, rest) =>
      if (skipWs rest).isEmpty then .ok j else .error .jsonDecodeError

/-- The inbound event: `httpMethod` and `body` are the only keys the
handler reads; `none` models an absent key. -/
structure Event where
  httpMethod : Option String
  body : Option String

/-- The invocation context; the handler only reads `request_id`. -/
structure Context where
  request_id : String

/-- The process environment; the handler only reads `OCR_SPACE_API_KEY`
(`none` models an unset variable). -/
structure Env where
  OCR_SPACE_API_KEY : Option String

/-- The outbound `requests.post` call: URL, form payload and the `apikey`
header. -/
structure OcrRequest where
  url : String
  base64Image : Json
  language : String
  isOverlayRequired : Bool
  detectOrientation : Bool
  scale : Bool
  OCREngine : Nat
  apikey : String

/-- The response dict the handler returns.  The `OPTIONS` branch of the
source omits the `isBase64Encoded` key, so the field is optional. -/
structure Response where
  statusCode : Nat
  headers : List (String × String)
  isBase64Encoded : Option Bool
  body : String

/-- Headers shared by every non-`OPTIONS` response of the source. -/
def stdHeaders : List (String × String) :=
  [("Content-Type", "application/json"), ("Access-Control-Allow-Origin", "*")]

/-- The outbound request the source builds for a given image and API key
(fixed URL, `language='rus'`, `isOverlayRequired=False`,
`detectOrientation=True`, `scale=True`, `OCREngine=2`). -/
def mkOcrRequest (image : Json) (key : String) : OcrRequest :=
  { url := "https://api.ocr.space/parse/image",
    base64Image := image,
    language := "rus",
    isOverlayRequired := false,
    detectOrientation := true,
    scale := true,
    OCREngine := 2,
    apikey := key }

/-- The handler of `backend/ocr/index.py`.  `provider` stands for the OCR
service: it maps the outbound request to the JSON value that
`response.json()` yields.  The result pairs the normal return value (or
the uncaught Python exception) with the list of outbound calls made. -/
def handler (event : Event) (context : Context) (env : Env)
    (provider : OcrRequest → Json) : Except PyErr Response × List OcrRequest :=
  let method := event.httpMethod.getD "GET"
  if method = "OPTIONS" then
    (.ok { statusCode := 200,
           headers := [("Access-Control-Allow-Origin", "*"),
                       ("Access-Control-Allow-Methods", "POST, OPTIONS"),
                       ("Access-Control-Allow-Headers", "Content-Type"),
                       ("Access-Control-Max-Age", "86400")],
           isBase64Encoded := none,
           body := "" }, [])
  else if method ≠ "POST" then
    (.ok { statusCode := 405,
           headers := stdHeaders,
           isBase64Encoded := some false,
           body := jsonDumps (.obj [("error", .str "Method not allowed")]) }, [])
  else
    match json_loads (event.body.getD "\x7b\x7d") with
    | .error e => (.error e, [])
    | .ok body_data =>
        match pyGet body_data "image" (.str "") with
        | .error e => (.error e, [])
        | .ok image_base64 =>
            if !image_base64.truthy then
              (.ok { statusCode := 400,
                     headers := stdHeaders,
                     isBase64Encoded := some false,
                     body := jsonDumps (.obj [("error", .str "Image is required")]) }, [])
            else
              let api_key := env.OCR_SPACE_API_KEY
              if api_key.getD "" = "" then
                (.ok { statusCode := 500,
                       headers := stdHeaders,
                       isBase64Encoded := some false,
                       body := jsonDumps
                         (.obj [("error", .str "OCR API key not configured")]) }, [])
              else
                let req := mkOcrRequest image_base64 (api_key.getD "")
                let result := provider req
                match pyGet result "IsErroredOnProcessing" .null with
                | .error e => (.error e, [req])
                | .ok flag =>
                    if flag.truthy then
                      match pyGet result "ErrorMessage" (.arr []) with
                      | .error e => (.error e, [req])
                      | .ok em =>
                          (.ok { statusCode := 500,
                                 headers := stdHeaders,
                                 isBase64Encoded := some false,
                                 body := jsonDumps
                                   (.obj [("error", .str "OCR processing failed"),
                                          ("details", em)]) }, [req])
                    else
                      match pyGet result "ParsedResults" (.arr []) with
                      | .error e => (.error e, [req])
                      | .ok parsed_results =>
                          let textE : Except PyErr Json :=
                            if parsed_results.truthy then
                              match pySubscriptZero parsed_results with
                              | .error e => .error e
                              | .ok first => pyGet first "ParsedText" (.str "")
                            else .ok (.str "")
                          match textE with
                          | .error e => (.error e, [req])
                          | .ok t =>
                              match pyStripJson t with
                              | .error e => (.error e, [req])
                              | .ok stripped =>
                                  (.ok { statusCode := 200,
                                         headers := stdHeaders,
                                         isBase64Encoded := some false,
                                         body := jsonDumps
                                           (.obj [("text", .str stripped),
                                                  ("requestId",
                                                   .str context.request_id)]) }, [req])

/-- A provider returning a successful OCR result (used as a concrete
provider in witnesses). -/
def provOk : OcrRequest → Json := fun _ =>
  .obj [("IsErroredOnProcessing", .bool false),
        ("ParsedResults", .arr [.obj [("ParsedText", .str "  Hello World  \n")]])]

/-- A provider reporting a processing error (used as a concrete provider
in witnesses). -/
def provErr : OcrRequest → Json := fun _ =>
  .obj [("IsErroredOnProcessing", .bool true),
        ("ErrorMessage", .arr [.str "bad image"])]

/-- A provider returning JSON `null` (used where the provider is never
reached). -/
def provNull : OcrRequest → Json := fun _ => Json.null

/-- C3: for every request with method `OPTIONS`, regardless of every other
request field, the handler returns status 200, an empty body, exactly the
four CORS headers, and makes no external call. -/
theorem C3_options_cors (event : Event) (context : Context) (env : Env)
    (provider : OcrRequest → Json)
    (hm : event.httpMethod = some "OPTIONS") :
    handler event context env provider =
      (.ok { statusCode := 200,
             headers := [("Access-Control-Allow-Origin", "*"),
                         ("Access-Control-Allow-Methods", "POST, OPTIONS"),
                         ("Access-Control-Allow-Headers", "Content-Type"),
                         ("Access-Control-Max-Age", "86400")],
             isBase64Encoded := none,
             body := "" }, []) := by
  unfold handler
  rw [hm]
  rfl

/-- Witness for C3 at a concrete request. -/
theorem C3_options_cors_witness :
    handler { httpMethod := some "OPTIONS", body := some "ignored" }
        { request_id := "rid" } { OCR_SPACE_API_KEY := some "k" } provNull =
      (.ok { statusCode := 200,
             headers := [("Access-Control-Allow-Origin", "*"),
                         ("Access-Control-Allow-Methods", "POST, OPTIONS"),
                         ("Access-Control-Allow-Headers", "Content-Type"),
                         ("Access-Control-Max-Age", "86400")],
             isBase64Encoded := none,
             body := "" }, []) :=
  C3_options_cors _ _ _ _ rfl

/-- C4: for every request whose method is neither `POST` nor `OPTIONS`,
the handler returns status 405 with body `jsonDumps` of the
`Method not allowed` error object, and makes no external call. -/
theorem C4_method_not_allowed (event : Event) (context : Context) (env : Env)
    (provider : OcrRequest → Json) (m : String)
    (hm : event.httpMethod = some m)
    (h1 : m ≠ "OPTIONS") (h2 : m ≠ "POST") :
    handler event context env provider =
      (.ok { statusCode := 405,
             headers := stdHeaders,
             isBase64Encoded := some false,
             body := jsonDumps (.obj [("error", .str "Method not allowed")]) }, []) := by
  unfold handler
  rw [hm, Option.getD_some, if_neg h1, if_pos h2]

/-- Witness for C4 at a concrete `GET` request. -/
theorem C4_method_not_allowed_witness :
    handler { httpMethod := some "GET", body := some "\x7b\x7d" }
        { request_id := "rid" } { OCR_SPACE_API_KEY := some "k" } provNull =
      (.ok { statusCode := 405,
             headers := stdHeaders,
             isBase64Encoded := some false,
             body := jsonDumps (.obj [("error", .str "Method not allowed")]) }, []) :=
  C4_method_not_allowed _ _ _ _ "GET" rfl (by decide) (by decide)

/-- C10: a request with no `httpMethod` field is treated as `GET`, so the
handler returns the 405 `Method not allowed` response without reading the
body and without an external call. -/
theorem C10_absent_method (event : Event) (context : Context) (env : Env)
    (provider : OcrRequest → Json)
    (hm : event.httpMethod = none) :
    handler event context env provider =
      (.ok { statusCode := 405,
             headers := stdHeaders,
             isBase64Encoded := some false,
             body := jsonDumps (.obj [("error", .str "Method not allowed")]) }, []) := by
  unfold handler
  rw [hm]
  rfl

/-- Witness for C10 at a concrete request with no method. -/
theorem C10_absent_method_witness :
    handler { httpMethod := none, body := some "not even json" }
        { request_id := "rid" } { OCR_SPACE_API_KEY := some "k" } provNull =
      (.ok { statusCode := 405,
             headers := stdHeaders,
             isBase64Encoded := some false,
             body := jsonDumps (.obj [("error", .str "Method not allowed")]) }, []) :=
  C10_absent_method _ _ _ _ rfl

/-- C9: for every `POST` request whose body string is not valid JSON, the
parse failure propagates uncaught (the error branch), and no external call
is made. -/
theorem C9_malformed_body (event : Event) (context : Context) (env : Env)
    (provider : OcrRequest → Json) (e : PyErr)
    (hm : event.httpMethod = some "POST")
    (hbad : json_loads (event.body.getD "\x7b\x7d") = .error e) :
    handler event context env provider = (.error e, []) := by
  unfold handler
  rw [hm, Option.getD_some, if_neg (by decide : ¬ ("POST" = "OPTIONS")),
      if_neg (by decide : ¬ ("POST" ≠ "POST")), hbad]

/-- Witness for C9 at a concrete malformed body. -/
theorem C9_malformed_body_witness :
    handler { httpMethod := some "POST", body := some "not json" }
        { request_id := "rid" } { OCR_SPACE_API_KEY := some "k" } provNull =
      (.error PyErr.jsonDecodeError, []) :=
  C9_malformed_body _ _ _ _ _ rfl rfl

/-- C5: for every `POST` request whose parsed JSON body lacks an `image`
key or maps it to the empty string (a missing body parses as the empty
object), the handler returns status 400 with the `Image is required`
error, whatever the API key configuration, and makes no external call. -/
theorem C5_image_required (event : Event) (context : Context) (env : Env)
    (provider : OcrRequest → Json) (kvs : List (String × Json))
    (hm : event.httpMethod = some "POST")
    (hb : json_loads (event.body.getD "\x7b\x7d") = .ok (.obj kvs))
    (himg : dictLookup kvs "image" = none ∨
            dictLookup kvs "image" = some (.str "")) :
    handler event context env provider =
      (.ok { statusCode := 400,
             headers := stdHeaders,
             isBase64Encoded := some false,
             body := jsonDumps (.obj [("error", .str "Image is required")]) }, []) := by
  unfold handler
  rw [hm, Option.getD_some, if_neg (by decide : ¬ ("POST" = "OPTIONS")),
      if_neg (by decide : ¬ ("POST" ≠ "POST")), hb]
  rcases himg with h | h <;> simp [pyGet, h, Json.truthy]

/-- Witness for C5 at a concrete `POST` with an empty JSON object body
and a configured API key. -/
theorem C5_image_required_witness :
    handler { httpMethod := some "POST", body := some "\x7b\x7d" }
        { request_id := "rid" } { OCR_SPACE_API_KEY := some "k" } provNull =
      (.ok { statusCode := 400,
             headers := stdHeaders,
             isBase64Encoded := some false,
             body := jsonDumps (.obj [("error", .str "Image is required")]) }, []) :=
  C5_image_required _ _ _ _ [] rfl rfl (Or.inl rfl)

/-- C6: for every `POST` request with a non-empty image, when the
`OCR_SPACE_API_KEY` environment variable is unset or empty, the handler
returns status 500 with the `OCR API key not configured` error and makes
no external call. -/
theorem C6_api_key_missing (event : Event) (context : Context) (env : Env)
    (provider : OcrRequest → Json) (kvs : List (String × Json)) (img : String)
    (hm : event.httpMethod = some "POST")
    (hb : json_loads (event.body.getD "\x7b\x7d") = .ok (.obj kvs))
    (himg : dictLookup kvs "image" = some (.str img)) (hne : img ≠ "")
    (hkey : env.OCR_SPACE_API_KEY = none ∨ env.OCR_SPACE_API_KEY = some "") :
    handler event context env provider =
      (.ok { statusCode := 500,
             headers := stdHeaders,
             isBase64Encoded := some false,
             body := jsonDumps
               (.obj [("error", .str "OCR API key not configured")]) }, []) := by
  unfold handler
  rw [hm, Option.getD_some, if_neg (by decide : ¬ ("POST" = "OPTIONS")),
      if_neg (by decide : ¬ ("POST" ≠ "POST")), hb]
  rcases hkey with h | h <;> simp [pyGet, himg, Json.truthy, hne, h]

/-- Witness for C6 at a concrete `POST` carrying an image with the API
key unset. -/
theorem C6_api_key_missing_witness :
    handler { httpMethod := some "POST", body := some "\x7b\"image\": \"abc\"\x7d" }
        { request_id := "rid" } { OCR_SPACE_API_KEY := none } provNull =
      (.ok { statusCode := 500,
             headers := stdHeaders,
             isBase64Encoded := some false,
             body := jsonDumps
               (.obj [("error", .str "OCR API key not configured")]) }, []) :=
  C6_api_key_missing _ _ _ _ [("image", .str "abc")] "abc" rfl rfl rfl
    (by decide) (Or.inl rfl)

/-- C2: for every `POST` request with a non-empty image and a configured
API key, when the provider response signals a processing error, the
handler returns status 500 whose body is the `OCR processing failed`
object carrying the provider's `ErrorMessage` list as `details`. -/
theorem C2_processing_error (event : Event) (context : Context) (env : Env)
    (provider : OcrRequest → Json) (kvs rkvs : List (String × Json))
    (img key : String) (em : Json)
    (hm : event.httpMethod = some "POST")
    (hb : json_loads (event.body.getD "\x7b\x7d") = .ok (.obj kvs))
    (himg : dictLookup kvs "image" = some (.str img)) (hne : img ≠ "")
    (hkey : env.OCR_SPACE_API_KEY = some key) (hkne : key ≠ "")
    (hr : provider (mkOcrRequest (.str img) key) = .obj rkvs)
    (hflag : ((dictLookup rkvs "IsErroredOnProcessing").getD .null).truthy = true)
    (hem : (dictLookup rkvs "ErrorMessage").getD (.arr []) = em) :
    (handler event context env provider).1 =
      .ok { statusCode := 500,
            headers := stdHeaders,
            isBase64Encoded := some false,
            body := jsonDumps
              (.obj [("error", .str "OCR processing failed"),
                     ("details", em)]) } := by
  unfold handler
  rw [hm, Option.getD_some, if_neg (by decide : ¬ ("POST" = "OPTIONS")),
      if_neg (by decide : ¬ ("POST" ≠ "POST")), hb]
  have himgT : (Json.str img).truthy = true := by simp [Json.truthy, hne]
  simp [pyGet, himg, himgT, hkey, hkne, hr, hflag, hem]

/-- Witness for C2 at the spec's example provider response. -/
theorem C2_processing_error_witness :
    (handler { httpMethod := some "POST", body := some "\x7b\"image\": \"abc\"\x7d" }
        { request_id := "rid" } { OCR_SPACE_API_KEY := some "k" } provErr).1 =
      .ok { statusCode := 500,
            headers := stdHeaders,
            isBase64Encoded := some false,
            body := jsonDumps
              (.obj [("error", .str "OCR processing failed"),
                     ("details", .arr [.str "bad image"])]) } :=
  C2_processing_error _ _ _ _ [("image", .str "abc")]
    [("IsErroredOnProcessing", .bool true), ("ErrorMessage", .arr [.str "bad image"])]
    "abc" "k" (.arr [.str "bad image"]) rfl rfl rfl (by decide) rfl (by decide)
    rfl rfl rfl

/-- C1: for every `POST` request with a non-empty image and a configured
API key, when the provider response does not signal a processing error,
the handler returns status 200 whose body carries the first
parsed-result's `ParsedText` stripped of leading and trailing whitespace
(the empty string when `ParsedResults` is empty) together with the
invocation's request identifier. -/
theorem C1_post_success (event : Event) (context : Context) (env : Env)
    (provider : OcrRequest → Json) (kvs rkvs : List (String × Json))
    (img key t : String) (l : List Json)
    (hm : event.httpMethod = some "POST")
    (hb : json_loads (event.body.getD "\x7b\x7d") = .ok (.obj kvs))
    (himg : dictLookup kvs "image" = some (.str img)) (hne : img ≠ "")
    (hkey : env.OCR_SPACE_API_KEY = some key) (hkne : key ≠ "")
    (hr : provider (mkOcrRequest (.str img) key) = .obj rkvs)
    (hflag : ((dictLookup rkvs "IsErroredOnProcessing").getD .null).truthy = false)
    (hpr : (dictLookup rkvs "ParsedResults").getD (.arr []) = .arr l)
    (htext : (l = [] ∧ t = "") ∨
             ∃ pkvs rest, l = Json.obj pkvs :: rest ∧
               (dictLookup pkvs "ParsedText").getD (.str "") = .str t) :
    (handler event context env provider).1 =
      .ok { statusCode := 200,
            headers := stdHeaders,
            isBase64Encoded := some false,
            body := jsonDumps
              (.obj [("text", .str (pyStrip t)),
                     ("requestId", .str context.request_id)]) } := by
  unfold handler
  rw [hm, Option.getD_some, if_neg (by decide : ¬ ("POST" = "OPTIONS")),
      if_neg (by decide : ¬ ("POST" ≠ "POST")), hb]
  have himgT : (Json.str img).truthy = true := by simp [Json.truthy, hne]
  rcases htext with ⟨hl, ht⟩ | ⟨pkvs, rest, hl, ht⟩ <;> subst hl
  · subst ht
    have harrN : (Json.arr ([] : List Json)).truthy = false := rfl
    simp [pyGet, himg, himgT, hkey, hkne, hr, hflag, hpr, harrN, pyStripJson]
  · have harrC : (Json.arr (Json.obj pkvs :: rest)).truthy = true := rfl
    simp [pyGet, himg, himgT, hkey, hkne, hr, hflag, hpr, harrC, ht,
          pySubscriptZero, pyStripJson]

/-- Witness for C1 at the spec's example provider response (the text gets
whitespace-trimmed). -/
theorem C1_post_success_witness :
    (handler { httpMethod := some "POST", body := some "\x7b\"image\": \"abc\"\x7d" }
        { request_id := "rid-1" } { OCR_SPACE_API_KEY := some "k" } provOk).1 =
      .ok { statusCode := 200,
            headers := stdHeaders,
            isBase64Encoded := some false,
            body := jsonDumps
              (.obj [("text", .str (pyStrip "  Hello World  \n")),
                     ("requestId", .str "rid-1")]) } :=
  C1_post_success _ _ _ _ [("image", .str "abc")]
    [("IsErroredOnProcessing", .bool false),
     ("ParsedResults", .arr [.obj [("ParsedText", .str "  Hello World  \n")]])]
    "abc" "k" "  Hello World  \n" [.obj [("ParsedText", .str "  Hello World  \n")]]
    rfl rfl rfl (by decide) rfl (by decide) rfl rfl rfl
    (Or.inr ⟨[("ParsedText", .str "  Hello World  \n")], [], rfl, rfl⟩)

/-- C7: every response the handler returns normally on a non-`OPTIONS`
request carries the `Content-Type: application/json` and
`Access-Control-Allow-Origin: *` headers. -/
theorem C7_std_headers (event : Event) (context : Context) (env : Env)
    (provider : OcrRequest → Json) (resp : Response)
    (hok : (handler event context env provider).1 = .ok resp)
    (hne : event.httpMethod.getD "GET" ≠ "OPTIONS") :
    ("Content-Type", "application/json") ∈ resp.headers ∧
    ("Access-Control-Allow-Origin", "*") ∈ resp.headers := by
  simp only [handler] at hok
  repeat' split at hok
  all_goals dsimp only at hok
  all_goals try replace hok := Except.ok.inj hok
  all_goals try subst hok
  all_goals simp_all [stdHeaders]

/-- Witness for C7 at a concrete `GET` request. -/
theorem C7_std_headers_witness :
    ("Content-Type", "application/json") ∈
      ({ statusCode := 405, headers := stdHeaders, isBase64Encoded := some false,
         body := jsonDumps (.obj [("error", .str "Method not allowed")]) } :
        Response).headers ∧
    ("Access-Control-Allow-Origin", "*") ∈
      ({ statusCode := 405, headers := stdHeaders, isBase64Encoded := some false,
         body := jsonDumps (.obj [("error", .str "Method not allowed")]) } :
        Response).headers :=
  C7_std_headers { httpMethod := some "GET", body := none } { request_id := "rid" }
    { OCR_SPACE_API_KEY := none } provNull _ rfl (by decide)

/-- C8 counterexample: the `OPTIONS` response of the source has no
`isBase64Encoded` key, so not every response carries that field. -/
theorem C8_options_lacks_isBase64Encoded :
    ((handler { httpMethod := some "OPTIONS", body := none } { request_id := "rid" }
        { OCR_SPACE_API_KEY := none } provNull).1.map
      (fun r => r.isBase64Encoded)) = .ok none := rfl

/-- C8 amended: every response the handler returns normally on a
non-`OPTIONS` request carries `isBase64Encoded = false`; the `OPTIONS`
response omits the field. -/
theorem C8_envelope_amended (event : Event) (context : Context) (env : Env)
    (provider : OcrRequest → Json) (resp : Response)
    (hok : (handler event context env provider).1 = .ok resp) :
    (event.httpMethod.getD "GET" = "OPTIONS" → resp.isBase64Encoded = none) ∧
    (event.httpMethod.getD "GET" ≠ "OPTIONS" → resp.isBase64Encoded = some false) := by
  simp only [handler] at hok
  repeat' split at hok
  all_goals dsimp only at hok
  all_goals try replace hok := Except.ok.inj hok
  all_goals try subst hok
  all_goals simp_all

/-- Witness for C8 amended at a concrete `GET` request. -/
theorem C8_envelope_amended_witness :
    (({ httpMethod := some "GET", body := none } : Event).httpMethod.getD "GET" =
        "OPTIONS" →
      ({ statusCode := 405, headers := stdHeaders, isBase64Encoded := some false,
         body := jsonDumps (.obj [("error", .str "Method not allowed")]) } :
        Response).isBase64Encoded = none) ∧
    (({ httpMethod := some "GET", body := none } : Event).httpMethod.getD "GET" ≠
        "OPTIONS" →
      ({ statusCode := 405, headers := stdHeaders, isBase64Encoded := some false,
         body := jsonDumps (.obj [("error", .str "Method not allowed")]) } :
        Response).isBase64Encoded = some false) :=
  C8_envelope_amended { httpMethod := some "GET", body := none } { request_id := "rid" }
    { OCR_SPACE_API_KEY := none } provNull _ rfl
